import Mathlib

/-!
Verification development for the ibookle repository: a shallow embedding of
the retrieval-and-recommendation pipeline, the spreadsheet-backed logging
functions and the admin dashboard table logic of `app.py`, `app_brief.py`
and `admin.py`, together with theorems settling the specification claims.

External services (the embedding model, the Pinecone similarity search, the
Gemini generation call, the Google-Sheets connection) are modelled as
oracle parameters; a call that may raise is an `Except String` value, and a
Python function that swallows exceptions returns an `Option`.
-/

namespace Ibookle

/-! ## Spreadsheet model

A worksheet is a list of rows (`gspread.get_all_values` order, 1-based
indexing in `update_cell`); a spreadsheet is a list of named worksheets,
`sheet1` being the first. -/

abbrev Row := List String

abbrev Sheet := List Row

/-- Model of `gspread` `update_cell(row, col, value)` with 1-based `row`, `col`:
replaces the single addressed cell, leaving the grid unchanged out of bounds. -/
def update_cell (s : Sheet) (r c : Nat) (v : String) : Sheet :=
  match s.get? (r - 1) with
  | some row => s.set (r - 1) (row.set (c - 1) v)
  | none => s

/-- A spreadsheet: worksheets by name, in tab order. -/
abbrev Spreadsheet := List (String × Sheet)

/-- Model of `spreadsheet.worksheet(name)`: the first worksheet with that name. -/
def worksheet (ss : Spreadsheet) (nm : String) : Option Sheet :=
  (ss.find? (fun p => p.1 = nm)).map Prod.snd

/-- Replace the contents of the named worksheet. -/
def setWorksheet (ss : Spreadsheet) (nm : String) (s : Sheet) : Spreadsheet :=
  ss.map (fun p => if p.1 = nm then (nm, s) else p)

/-- The feedback glyphs written by `update_log_feedback`. -/
def thumbsUp : String := "👍"

/-- The negative feedback glyph. -/
def thumbsDown : String := "👎"

/-- The line `feedback_text = "👍" if score == 1 else "👎"` shared by both
feedback updaters. -/
def feedbackText (score : Int) : String := if score = 1 then thumbsUp else thumbsDown

/-! ## app.py: logging -/

/-- Embedding of `app.py`'s `save_to_log`.  The Google-Sheets connection
(`get_google_sheet()`, which itself returns `None` on failure) is the
parameter `conn`; on a live connection the function appends
`[now, session_id, user_input, ai_response, recommended_books, ""]` and
returns `len(sheet.get_all_values())`; with no connection it is a silent
no-op returning `None`.  The bare `except` of the source is reflected in
the total `Option Nat` return type: no failure escapes. -/
def save_to_log (conn : Option Sheet) (now session_id user_input ai_response recommended_books : String) :
    Option Sheet × Option Nat :=
  match conn with
  | some sheet =>
      let new_row := [now, session_id, user_input, ai_response, recommended_books, ""]
      let sheet2 := sheet ++ [new_row]
      (some sheet2, some sheet2.length)
  | none => (none, none)

/-- Embedding of `app.py`'s `update_log_feedback` callback.  `last_row_idx`
is the stored row index (Python truthiness: `None` and `0` both skip),
`score` is the thumbs value stored under the feedback widget key (`none`
when the key is absent or the widget unanswered).  On a dead connection the
`update_cell` call raises and the bare `except: pass` leaves everything
unchanged.  Column 6 is the Feedback column of `app.py`'s six-field row. -/
def update_log_feedback (conn : Option Sheet) (last_row_idx : Option Nat) (score : Option Int) :
    Option Sheet :=
  match last_row_idx with
  | some row_idx =>
      if row_idx ≠ 0 then
        match score with
        | some s =>
            match conn with
            | some sheet => some (update_cell sheet row_idx 6 (feedbackText s))
            | none => none
        | none => conn
      else conn
  | none => conn

/-! ## app.py: DimensionFixer -/

/-- Embedding of `DimensionFixer.embed_query` in `app.py`'s
`get_recommendations`: `self.model.embed_query(text)[:768]`. -/
def embed_query {α : Type} (model : String → List α) (text : String) : List α :=
  (model text).take 768

/-- Embedding of `DimensionFixer.embed_documents`:
`[v[:768] for v in self.model.embed_documents(texts)]`. -/
def embed_documents {α : Type} (model : List String → List (List α)) (texts : List String) :
    List (List α) :=
  (model texts).map (fun v => v.take 768)

/-! ## Documents and book cards -/

/-- Metadata of a retrieved document: the book record fields as an optional
dictionary, read with `metadata.get(key, default)` in the source. -/
structure Metadata where
  Title : Option String
  Author : Option String
  Illustrator : Option String
  Category : Option String
  Quick_Summary : Option String
  Refine_Content : Option String
  Link : Option String
deriving Repr, DecidableEq

/-- A document returned by `vectorstore.similarity_search`. -/
structure Doc where
  metadata : Metadata
deriving Repr, DecidableEq

/-- Title extraction in `app.py`: `d.metadata.get('Title','未知')`. -/
def titleOf (d : Doc) : String := d.metadata.Title.getD "未知"

/-- The book card built in `app.py`'s `st.session_state.search_results`. -/
structure BookCard where
  Title : String
  Author : String
  Illustrator : String
  Category : String
  Quick_Summary : String
  Refine_Content : String
  Link : String
deriving Repr, DecidableEq

/-- The dictionary comprehension of `app.py` lines 215-223. -/
def mkCard (d : Doc) : BookCard where
  Title := d.metadata.Title.getD "未知"
  Author := d.metadata.Author.getD "未知"
  Illustrator := d.metadata.Illustrator.getD "未知"
  Category := d.metadata.Category.getD "一般"
  Quick_Summary := d.metadata.Quick_Summary.getD ""
  Refine_Content := d.metadata.Refine_Content.getD "暫無導讀"
  Link := d.metadata.Link.getD ""

/-- The fixed prompt template of `app.py` (lines 201-207), with the user
query and the joined titles substituted at the two f-string holes. -/
def mkPrompt (user_query titles_str : String) : String :=
  "\n            使用者目前的問題：" ++ user_query ++
  "\n            我為他找到的相關童書包括：" ++ titles_str ++
  "\n            請以專業親子共讀專家的身份，用親切溫和的語氣，簡述為什麼這幾本書適合使用者。" ++
  "\n            不需要詳細介紹每本書，只要針對使用者的情境給予一段鼓勵與引導即可。" ++
  "\n            (約 150 字，禁止使用表情符號)\n            "

/-- The generic user-facing message shown by `app.py` when the generation
call fails: `st.error("AI 專家目前連線不穩，請稍候。")`. -/
def genericErrorMsg : String := "AI 專家目前連線不穩，請稍候。"

/-! ## app.py: retrieval and the search-and-generate block -/

/-- Embedding of `app.py`'s `get_recommendations`: builds the 768-truncating
embedder, then `vectorstore.similarity_search(user_query, k=5)` — the
oracle `retrieve` receives the query and `k`.  The bare `except` converts
any failure to `None`. -/
def get_recommendations (retrieve : String → Nat → Except String (List Doc)) (user_query : String) :
    Option (List Doc) :=
  match retrieve user_query 5 with
  | .ok ds => some ds
  | .error _ => none

/-- Session state of `app.py` relevant to the pipeline. -/
structure AppState where
  session_id : String
  search_results : Option (String × List BookCard)
  prev_query : Option String
  last_row_idx : Option Nat
deriving Repr, DecidableEq

/-- The entry condition of the search-and-generate block (`app.py` line 193):
`user_query and (not st.session_state.search_results or
st.session_state.get("prev_query") != user_query)`. -/
def searchGuard (st : AppState) (user_query : String) : Bool :=
  user_query ≠ "" && (st.search_results.isNone || st.prev_query ≠ some user_query)

/-- Externally observable calls made by one execution of the block. -/
structure RunTrace where
  retrievalCalls : List (String × Nat)
  genCalls : List String
  appendedRows : List Row
  errorMessage : Option String
deriving Repr, DecidableEq

/-- Result of one execution of the search-and-generate block. -/
structure RunResult where
  state : AppState
  sheet : Option Sheet
  trace : RunTrace
deriving Repr, DecidableEq

/-- Embedding of `app.py`'s search-and-generate block (lines 193-229) for one
script execution.  `retrieve` and `generate` are the similarity-search and
Gemini oracles, `now` the formatted timestamp, `conn` the sheet connection
used by `save_to_log`.  On a generation failure the `except` branch shows
`genericErrorMsg` and leaves the session state and the sheet untouched. -/
def runSearchBlock (retrieve : String → Nat → Except String (List Doc))
    (generate : String → Except String String)
    (now : String) (conn : Option Sheet) (st : AppState) (user_query : String) : RunResult :=
  if searchGuard st user_query then
    match get_recommendations retrieve user_query with
    | none =>
        { state := st, sheet := conn,
          trace := { retrievalCalls := [(user_query, 5)], genCalls := [],
                     appendedRows := [], errorMessage := none } }
    | some results =>
        if results.isEmpty then
          { state := st, sheet := conn,
            trace := { retrievalCalls := [(user_query, 5)], genCalls := [],
                       appendedRows := [], errorMessage := none } }
        else
          let titles_str := String.intercalate ", " (results.map titleOf)
          let prompt := mkPrompt user_query titles_str
          match generate prompt with
          | .error _ =>
              { state := st, sheet := conn,
                trace := { retrievalCalls := [(user_query, 5)], genCalls := [prompt],
                           appendedRows := [], errorMessage := some genericErrorMsg } }
          | .ok ai_response =>
              let saved := save_to_log conn now st.session_id user_query ai_response titles_str
              { state := { st with
                  search_results := some (ai_response, results.map mkCard),
                  prev_query := some user_query,
                  last_row_idx := saved.2 },
                sheet := saved.1,
                trace := { retrievalCalls := [(user_query, 5)], genCalls := [prompt],
                           appendedRows :=
                             match conn with
                             | some _ => [[now, st.session_id, user_query, ai_response, titles_str, ""]]
                             | none => [],
                           errorMessage := none } }
  else
    { state := st, sheet := conn,
      trace := { retrievalCalls := [], genCalls := [], appendedRows := [], errorMessage := none } }

/-- The guard on the feedback section of `app.py` (line 259):
`if st.session_state.last_row_idx:` inside `if st.session_state.search_results:`
— Python truthiness, so `None` and `0` both hide the widget. -/
def feedbackWidgetShown (st : AppState) : Bool :=
  st.search_results.isSome &&
    (match st.last_row_idx with
     | some r => r ≠ 0
     | none => false)

/-! ## app_brief.py -/

/-- Title extraction in `app_brief.py`: `d.metadata.get('Title','')`. -/
def titleOfBrief (d : Doc) : String := d.metadata.Title.getD ""

/-- Embedding of `app_brief.py`'s `save_to_log`.  It opens the worksheet
`"Brief_Logs"` of the spreadsheet `"AI_User_Logs"` and appends the FIVE-field
row `[now, user_input, ai_response, recommended_books, ""]`; `ss = none`
models a failed credential/open step, and a missing worksheet also raises
into the bare `except`, so both return `None` with nothing appended. -/
def save_to_log_brief (ss : Option Spreadsheet) (now user_input ai_response recommended_books : String) :
    Option Spreadsheet × Option Nat :=
  match ss with
  | none => (none, none)
  | some s =>
      match worksheet s "Brief_Logs" with
      | none => (some s, none)
      | some sheet =>
          let row := [now, user_input, ai_response, recommended_books, ""]
          let sheet2 := sheet ++ [row]
          (some (setWorksheet s "Brief_Logs" sheet2), some sheet2.length)

/-- Embedding of `app_brief.py`'s `update_log_feedback(row_index, score)`.
It opens `client.open("AI_User_Logs").sheet1` — the FIRST worksheet, not
necessarily `"Brief_Logs"` — and calls `update_cell(row_index, 5, text)`.
A `row_index` of `None` makes `update_cell` raise, swallowed by
`except: pass`; likewise a dead connection or an empty spreadsheet. -/
def update_log_feedback_brief (ss : Option Spreadsheet) (row_index : Option Nat) (score : Int) :
    Option Spreadsheet :=
  match ss with
  | none => none
  | some s =>
      match s.head? with
      | none => some s
      | some (nm, sheet) =>
          match row_index with
          | none => some s
          | some r =>
              some (setWorksheet s nm (update_cell sheet r 5 (feedbackText score)))

/-- Embedding of `app_brief.py`'s `get_recommendations` (lines 39-42): no
`try`/`except`, so a failure of the embedding or the similarity search
propagates to the caller as an uncaught exception. -/
def get_recommendations_brief (retrieve : String → Nat → Except String (List Doc))
    (user_query : String) : Except String (List Doc) :=
  retrieve user_query 5

/-- The prompt template of `app_brief.py` line 63. -/
def mkBriefPrompt (user_input titles : String) : String :=
  "使用者：" ++ user_input ++ "\n推薦書：" ++ titles ++ "\n請以親子專家口吻簡述理由(100字，不含表情)。"

/-- Result of one execution of `app_brief.py`'s main flow, with the call
trace; `updateCalls` records each invocation of `update_log_feedback`
with its `row_index` argument. -/
structure BriefRunResult where
  sheetWorld : Option Spreadsheet
  retrievalCalls : List (String × Nat)
  genCalls : List String
  appendedRows : List Row
  updateCalls : List (Option Nat × Int)
deriving Repr, DecidableEq

/-- Embedding of `app_brief.py`'s main flow (lines 57-80) for one script
execution.  `fb` is the thumbs value of `st.feedback` (`none` until the
user clicks).  `get_recommendations` and the generation call are outside
any `try`, so their failures propagate (`Except.error`).  There is no
`prev_query`/`search_results` guard: every rerun with a non-empty input
repeats the whole pipeline, including the log append. -/
def runBriefFlow (retrieve : String → Nat → Except String (List Doc))
    (generate : String → Except String String)
    (now : String) (ss : Option Spreadsheet) (user_input : String) (fb : Option Int) :
    Except String BriefRunResult :=
  if user_input = "" then
    .ok { sheetWorld := ss, retrievalCalls := [], genCalls := [],
          appendedRows := [], updateCalls := [] }
  else
    match get_recommendations_brief retrieve user_input with
    | .error e => .error e
    | .ok results =>
        if results.isEmpty then
          .ok { sheetWorld := ss, retrievalCalls := [(user_input, 5)], genCalls := [],
                appendedRows := [], updateCalls := [] }
        else
          let titles := String.intercalate ", " (results.map titleOfBrief)
          let prompt := mkBriefPrompt user_input titles
          match generate prompt with
          | .error e => .error e
          | .ok ai_response =>
              let saved := save_to_log_brief ss now user_input ai_response titles
              let row_idx := saved.2
              let appended :=
                match saved.2 with
                | some _ => [[now, user_input, ai_response, titles, ""]]
                | none => ([] : List Row)
              match fb with
              | none =>
                  .ok { sheetWorld := saved.1, retrievalCalls := [(user_input, 5)],
                        genCalls := [prompt], appendedRows := appended, updateCalls := [] }
              | some f =>
                  .ok { sheetWorld := update_log_feedback_brief saved.1 row_idx f,
                        retrievalCalls := [(user_input, 5)], genCalls := [prompt],
                        appendedRows := appended, updateCalls := [(row_idx, f)] }

/-! ## admin.py: filter, sort, 序號 -/

/-- A log row as the admin dashboard sees it: the parsed `Time` value (a
timestamp, modelled as a natural number) plus the remaining cell payload. -/
structure LogRow where
  time : Nat
  payload : List String
deriving Repr, DecidableEq

/-- The `.dt.date` projection: the calendar day of a timestamp (the model
counts whole days, matching the fact that dates are timestamps truncated
to day granularity). -/
def dateOf (t : Nat) : Nat := t / 86400

/-- Embedding of the date mask of `admin.py` line 85:
`(df['Time'].dt.date >= start_date) & (df['Time'].dt.date <= end_date)`
followed by `df.loc[mask]`. -/
def filterByDate (rows : List LogRow) (start_date end_date : Nat) : List LogRow :=
  rows.filter (fun r => decide (start_date ≤ dateOf r.time) && decide (dateOf r.time ≤ end_date))

/-- The descending-time order used by
`sort_values(by="Time", ascending=False)`. -/
def adminLe (a b : LogRow) : Prop := b.time ≤ a.time

instance : DecidableRel adminLe := fun a b => Nat.decLe b.time a.time

instance : IsTotal LogRow adminLe := ⟨fun a b => Nat.le_total b.time a.time⟩

instance : IsTrans LogRow adminLe := ⟨fun _ _ _ h1 h2 => Nat.le_trans h2 h1⟩

/-- The sort of `admin.py` line 89 (descending by `Time`). -/
def adminSort (rows : List LogRow) : List LogRow := List.insertionSort adminLe rows

/-- Embedding of the filter/sort/序號 block of `admin.py` lines 85-92: keep
the rows in the inclusive date range, sort by `Time` descending, then
`insert(0, '序號', range(1, len+1))` — each displayed row paired with its
1-based 序號. -/
def adminProcess (rows : List LogRow) (start_date end_date : Nat) : List (Nat × LogRow) :=
  (List.range' 1 (adminSort (filterByDate rows start_date end_date)).length).zip
    (adminSort (filterByDate rows start_date end_date))

/-! ## Concrete demo values used by witnesses and counterexamples -/

/-- A concrete retrieved document. -/
def demoDoc : Doc where
  metadata :=
    { Title := some "小黑魚", Author := some "李歐·李奧尼", Illustrator := none,
      Category := none, Quick_Summary := none, Refine_Content := none, Link := none }

/-- A fresh session state (as initialised at the top of `app.py`). -/
def demoState : AppState where
  session_id := "s1"
  search_results := none
  prev_query := none
  last_row_idx := none

/-- A retrieval oracle that always finds `demoDoc`. -/
def demoRetrieve : String → Nat → Except String (List Doc) := fun _ _ => .ok [demoDoc]

/-- A generation oracle that always answers. -/
def demoGenerate : String → Except String String := fun _ => .ok "這本書很適合您的孩子。"

/-! ## Theorems for the claims -/

/-- C3: the query vector handed to the similarity search is the first 768
components of the embedding model's output, so it has length 768 whenever
the model emits at least 768 components; document embeddings are truncated
to their first 768 components in the same way. -/
theorem C3_dimension_fixer {α : Type} (model : String → List α)
    (docsModel : List String → List (List α)) (t : String) (texts : List String)
    (h : 768 ≤ (model t).length) :
    (embed_query model t).length = 768 ∧
    (∀ i, i < 768 → (embed_query model t).get? i = (model t).get? i) ∧
    ∀ j, (embed_documents docsModel texts).get? j =
      ((docsModel texts).get? j).map (fun v => v.take 768) := by
  refine ⟨?_, ?_, ?_⟩
  · simp only [embed_query, List.length_take]
    omega
  · intro i hi
    exact List.get?_take hi
  · intro j
    simp [embed_documents]

/-- Witness for C3 at a concrete 800-component embedding. -/
theorem C3_witness :
    (embed_query (fun _ : String => List.range 800) "q").length = 768 :=
  (C3_dimension_fixer (fun _ : String => List.range 800) (fun _ => []) "q" []
    (by simp)).1

/-- C7: `save_to_log` returns the total number of rows of the worksheet
after the append — the 1-based index of the freshly appended row — on
success, and `none` with the sheet untouched on failure; it is a total
function, so no exception escapes. -/
theorem C7_save_returns_new_row_index (conn : Option Sheet) (now sid input resp books : String) :
    (conn = none → save_to_log conn now sid input resp books = (none, none)) ∧
    ∀ sheet, conn = some sheet →
      (save_to_log conn now sid input resp books).2 = some (sheet.length + 1) ∧
      (save_to_log conn now sid input resp books).1 =
        some (sheet ++ [[now, sid, input, resp, books, ""]]) ∧
      (sheet ++ [[now, sid, input, resp, books, ""]]).length = sheet.length + 1 ∧
      (sheet ++ [[now, sid, input, resp, books, ""]]).get? sheet.length =
        some [now, sid, input, resp, books, ""] := by
  constructor
  · rintro rfl; rfl
  · rintro sheet rfl
    refine ⟨by simp [save_to_log], rfl, by simp, ?_⟩
    exact List.get?_concat_length sheet _

/-- Witness for C7 on a one-row sheet and on a dead connection. -/
theorem C7_witness :
    (save_to_log (some [["h"]]) "t" "s" "i" "r" "b").2 = some 2 ∧
    save_to_log none "t" "s" "i" "r" "b" = (none, none) :=
  ⟨((C7_save_returns_new_row_index (some [["h"]]) "t" "s" "i" "r" "b").2 [["h"]] rfl).1,
   (C7_save_returns_new_row_index none "t" "s" "i" "r" "b").1 rfl⟩

/-- C2 counterexample: the row appended by `app_brief.py`'s `save_to_log`
has five fields (`Time, Input, AI, Books, Feedback` — no SessionID), so not
every row appended by a function named `save_to_log` has six fields. -/
theorem C2_counterexample :
    save_to_log_brief (some [("Brief_Logs", [])]) "t" "i" "r" "b" =
      (some [("Brief_Logs", [["t", "i", "r", "b", ""]])], some 1) ∧
    (["t", "i", "r", "b", ""] : Row).length ≠ 6 :=
  ⟨rfl, by decide⟩

/-- C2 (amended): every row appended by `app.py`'s `save_to_log` has exactly
six fields in the order Time, SessionID, Input, AI response, joined titles,
Feedback, with the Feedback field empty; `app_brief.py`'s `save_to_log`
appends a five-field row (no SessionID) whose last (Feedback) field is
likewise empty. -/
theorem C2_app_row_shape (conn : Option Sheet) (sheet : Sheet) (now sid input resp books : String)
    (h : conn = some sheet) :
    (save_to_log conn now sid input resp books).1 =
      some (sheet ++ [[now, sid, input, resp, books, ""]]) ∧
    ([now, sid, input, resp, books, ""] : Row).length = 6 ∧
    ([now, sid, input, resp, books, ""] : Row).getLast? = some "" ∧
    ∀ ss : Spreadsheet, ∀ bsheet : Sheet, worksheet ss "Brief_Logs" = some bsheet →
      (save_to_log_brief (some ss) now input resp books).1 =
        some (setWorksheet ss "Brief_Logs" (bsheet ++ [[now, input, resp, books, ""]])) ∧
      ([now, input, resp, books, ""] : Row).length = 5 := by
  subst h
  refine ⟨rfl, rfl, rfl, ?_⟩
  intro ss bsheet hws
  refine ⟨?_, rfl⟩
  simp [save_to_log_brief, hws]

/-- Witness for C2's amended theorem at concrete field values. -/
theorem C2_witness :
    (save_to_log (some []) "T" "S" "I" "A" "B").1 =
      some [["T", "S", "I", "A", "B", ""]] ∧
    (["T", "S", "I", "A", "B", ""] : Row).length = 6 := by
  have h := C2_app_row_shape (some []) [] "T" "S" "I" "A" "B" rfl
  exact ⟨h.1, h.2.1⟩

/-- Helper: a non-empty list is not `isEmpty`. -/
theorem isEmpty_false_of_ne_nil {α : Type} {l : List α} (h : l ≠ []) : l.isEmpty = false := by
  cases l with
  | nil => exact absurd rfl h
  | cons a t => rfl

/-- C1: on a fresh non-empty query (guard open) whose retrieval succeeds
with a non-empty result, the block requests exactly `k = 5` neighbours from
the vector store, joins the retrieved titles in retrieval order with `", "`,
substitutes query and joined titles into the fixed prompt template, and
issues exactly one generation call, whose payload is that prompt. -/
theorem C1_single_generation_call (retrieve : String → Nat → Except String (List Doc))
    (generate : String → Except String String) (now : String) (conn : Option Sheet)
    (st : AppState) (q : String) (ds : List Doc)
    (hguard : searchGuard st q = true)
    (hret : retrieve q 5 = .ok ds) (hne : ds ≠ []) :
    (runSearchBlock retrieve generate now conn st q).trace.retrievalCalls = [(q, 5)] ∧
    (runSearchBlock retrieve generate now conn st q).trace.genCalls =
      [mkPrompt q (String.intercalate ", " (ds.map titleOf))] := by
  have hie := isEmpty_false_of_ne_nil hne
  cases hgen : generate (mkPrompt q (String.intercalate ", " (ds.map titleOf))) with
  | error e => simp [runSearchBlock, get_recommendations, hguard, hret, hie, hgen]
  | ok r => simp [runSearchBlock, get_recommendations, hguard, hret, hie, hgen]

/-- Witness for C1 on a concrete query and one-document retrieval. -/
theorem C1_witness :
    (runSearchBlock demoRetrieve demoGenerate "t" (some []) demoState "分離焦慮").trace.retrievalCalls =
      [("分離焦慮", 5)] ∧
    (runSearchBlock demoRetrieve demoGenerate "t" (some []) demoState "分離焦慮").trace.genCalls =
      [mkPrompt "分離焦慮" (String.intercalate ", " ([demoDoc].map titleOf))] :=
  C1_single_generation_call demoRetrieve demoGenerate "t" (some []) demoState "分離焦慮"
    [demoDoc] (by decide) rfl (by decide)

/-- C6 (amended): in `app.py` every retrieval failure is converted to `None`
by `get_recommendations` and every generation failure to the fixed generic
error message, leaving state and sheet untouched; in `app_brief.py`
`get_recommendations` and the generation call have no `try`/`except`, so
their failures propagate as uncaught exceptions. -/
theorem C6_error_handling (now : String) (conn : Option Sheet) (st : AppState) (q : String) :
    (∀ retrieve e, retrieve q 5 = .error e → get_recommendations retrieve q = none) ∧
    (∀ retrieve generate ds e, retrieve q 5 = .ok ds → ds ≠ [] → searchGuard st q = true →
      generate (mkPrompt q (String.intercalate ", " (ds.map titleOf))) = .error e →
      (runSearchBlock retrieve generate now conn st q).trace.errorMessage = some genericErrorMsg ∧
      (runSearchBlock retrieve generate now conn st q).state = st ∧
      (runSearchBlock retrieve generate now conn st q).sheet = conn) ∧
    (∀ retrieve e, retrieve q 5 = .error e →
      get_recommendations_brief retrieve q = .error e) := by
  refine ⟨?_, ?_, ?_⟩
  · intro retrieve e hret
    simp [get_recommendations, hret]
  · intro retrieve generate ds e hret hne hguard hgen
    have hie := isEmpty_false_of_ne_nil hne
    refine ⟨?_, ?_, ?_⟩ <;>
      simp [runSearchBlock, get_recommendations, hguard, hret, hie, hgen]
  · intro retrieve e hret
    simpa [get_recommendations_brief] using hret

/-- Witness for C6 with failing retrieval and generation oracles. -/
theorem C6_witness :
    get_recommendations (fun _ _ => .error "ConnectionError") "q" = none ∧
    (runSearchBlock demoRetrieve (fun _ => .error "503") "t" (some []) demoState "q").trace.errorMessage =
      some genericErrorMsg ∧
    get_recommendations_brief (fun _ _ => .error "ConnectionError") "q" =
      .error "ConnectionError" := by
  have h := C6_error_handling "t" (some []) demoState "q"
  exact ⟨h.1 (fun _ _ => .error "ConnectionError") "ConnectionError" rfl,
    (h.2.1 demoRetrieve (fun _ => .error "503") [demoDoc] "503" rfl (by decide) (by decide) rfl).1,
    h.2.2 (fun _ _ => .error "ConnectionError") "ConnectionError" rfl⟩

/-- C6 counterexample: in `app_brief.py` a retrieval failure propagates out
of `get_recommendations` unchanged instead of becoming `None`, and a
generation failure escapes the main flow uncaught instead of being turned
into a generic user-facing message. -/
theorem C6_counterexample :
    get_recommendations_brief (fun _ _ => .error "ConnectionError") "分離焦慮" =
      .error "ConnectionError" ∧
    runBriefFlow demoRetrieve (fun _ => .error "QuotaExceeded") "t"
        (some [("Brief_Logs", [])]) "q" none =
      .error "QuotaExceeded" :=
  ⟨rfl, rfl⟩

/-- C8 (amended): in `app.py`, once a query has completed successfully
(`search_results` cached and `prev_query` equal to the current text),
re-executing the script with the unchanged query performs no retrieval, no
generation call and no log append.  (After a failed attempt the guard stays
open and `app.py` retries; `app_brief.py` has no guard at all, so there
every re-execution repeats the pipeline, as the counterexample shows.) -/
theorem C8_guarded_rerun_noop (retrieve : String → Nat → Except String (List Doc))
    (generate : String → Except String String) (now : String) (conn : Option Sheet)
    (st : AppState) (q : String) (res : String × List BookCard)
    (h1 : st.search_results = some res) (h2 : st.prev_query = some q) :
    runSearchBlock retrieve generate now conn st q =
      { state := st, sheet := conn,
        trace := { retrievalCalls := [], genCalls := [], appendedRows := [],
                   errorMessage := none } } := by
  have hg : searchGuard st q = false := by
    simp [searchGuard, h1, h2]
  simp [runSearchBlock, hg]

/-- Witness for C8's amended theorem: a state that already answered `"q"`. -/
theorem C8_witness :
    runSearchBlock demoRetrieve demoGenerate "t" (some [])
        { session_id := "s1", search_results := some ("ans", []), prev_query := some "q",
          last_row_idx := some 2 } "q" =
      { state := { session_id := "s1", search_results := some ("ans", []),
                   prev_query := some "q", last_row_idx := some 2 },
        sheet := some [],
        trace := { retrievalCalls := [], genCalls := [], appendedRows := [],
                   errorMessage := none } } :=
  C8_guarded_rerun_noop demoRetrieve demoGenerate "t" (some [])
    { session_id := "s1", search_results := some ("ans", []), prev_query := some "q",
      last_row_idx := some 2 } "q" ("ans", []) rfl rfl

/-- C8 counterexample: in `app_brief.py` there is no guard, so executing the
script twice with the same non-empty query performs a second retrieval, a
second generation call, and appends a second log row. -/
theorem C8_counterexample :
    runBriefFlow demoRetrieve demoGenerate "t1" (some [("Brief_Logs", [])]) "q" none =
      .ok { sheetWorld := some [("Brief_Logs", [["t1", "q", "這本書很適合您的孩子。", "小黑魚", ""]])],
            retrievalCalls := [("q", 5)],
            genCalls := [mkBriefPrompt "q" "小黑魚"],
            appendedRows := [["t1", "q", "這本書很適合您的孩子。", "小黑魚", ""]],
            updateCalls := [] } ∧
    runBriefFlow demoRetrieve demoGenerate "t2"
        (some [("Brief_Logs", [["t1", "q", "這本書很適合您的孩子。", "小黑魚", ""]])]) "q" none =
      .ok { sheetWorld := some [("Brief_Logs",
              [["t1", "q", "這本書很適合您的孩子。", "小黑魚", ""],
               ["t2", "q", "這本書很適合您的孩子。", "小黑魚", ""]])],
            retrievalCalls := [("q", 5)],
            genCalls := [mkBriefPrompt "q" "小黑魚"],
            appendedRows := [["t2", "q", "這本書很適合您的孩子。", "小黑魚", ""]],
            updateCalls := [] } :=
  ⟨rfl, rfl⟩

/-- C9: the rendered book cards and the logged comma-joined title string
preserve exactly the order and multiplicity of the documents returned by
`similarity_search`: the stored card list is the pointwise image of the
result list, and the logged string is the `", "`-join of the titles in
retrieval order.  No ranking, filtering or deduplication intervenes. -/
theorem C9_order_and_multiplicity_preserved (retrieve : String → Nat → Except String (List Doc))
    (generate : String → Except String String) (now : String) (conn : Option Sheet)
    (sheet : Sheet) (st : AppState) (q : String) (ds : List Doc) (resp : String)
    (hguard : searchGuard st q = true)
    (hret : retrieve q 5 = .ok ds) (hne : ds ≠ [])
    (hgen : generate (mkPrompt q (String.intercalate ", " (ds.map titleOf))) = .ok resp)
    (hconn : conn = some sheet) :
    (runSearchBlock retrieve generate now conn st q).state.search_results =
      some (resp, ds.map mkCard) ∧
    (ds.map mkCard).length = ds.length ∧
    (∀ i, (ds.map mkCard).get? i = (ds.get? i).map mkCard) ∧
    (runSearchBlock retrieve generate now conn st q).trace.appendedRows =
      [[now, st.session_id, q, resp, String.intercalate ", " (ds.map titleOf), ""]] := by
  subst hconn
  have hie := isEmpty_false_of_ne_nil hne
  refine ⟨?_, by simp, fun i => by simp [List.get?_map], ?_⟩ <;>
    simp [runSearchBlock, get_recommendations, hguard, hret, hie, hgen]

/-- Witness for C9 on a concrete successful run. -/
theorem C9_witness :
    (runSearchBlock demoRetrieve demoGenerate "t" (some []) demoState "q").state.search_results =
      some ("這本書很適合您的孩子。", [demoDoc].map mkCard) ∧
    (runSearchBlock demoRetrieve demoGenerate "t" (some []) demoState "q").trace.appendedRows =
      [["t", "s1", "q", "這本書很適合您的孩子。",
        String.intercalate ", " ([demoDoc].map titleOf), ""]] := by
  have h := C9_order_and_multiplicity_preserved demoRetrieve demoGenerate "t" (some []) []
    demoState "q" [demoDoc] "這本書很適合您的孩子。" (by decide) rfl (by decide) rfl rfl
  exact ⟨h.1, h.2.2.2⟩

/-- C4 (amended): in `app.py` the feedback mutation rewrites exactly one
cell — column 6 (the Feedback column) of the stored row, in the one
worksheet (`Brief_Logs`) both the append and the update address — writing
`👍` when the score is 1 and `👎` otherwise; every other cell and every
other row is left unchanged.  In `app_brief.py` the update instead writes
column 5 of the spreadsheet's first worksheet, which need not be the
worksheet the row was appended to (see the counterexample). -/
theorem C4_single_cell_update (sheet : Sheet) (row : Row) (r : Nat) (s : Int)
    (hr : r ≠ 0) (hrow : sheet[r - 1]? = some row) (hlen : 6 ≤ row.length) :
    update_log_feedback (some sheet) (some r) (some s) =
      some (sheet.set (r - 1) (row.set 5 (feedbackText s))) ∧
    (sheet.set (r - 1) (row.set 5 (feedbackText s))).length = sheet.length ∧
    (∀ i, i ≠ r - 1 → (sheet.set (r - 1) (row.set 5 (feedbackText s)))[i]? = sheet[i]?) ∧
    (∀ j, j ≠ 5 → (row.set 5 (feedbackText s))[j]? = row[j]?) ∧
    (row.set 5 (feedbackText s))[5]? = some (feedbackText s) ∧
    feedbackText 1 = thumbsUp ∧ ∀ s2 : Int, s2 ≠ 1 → feedbackText s2 = thumbsDown := by
  refine ⟨?_, by simp, ?_, ?_, ?_, rfl, ?_⟩
  · simp [update_log_feedback, hr, update_cell, hrow]
  · intro i hi
    exact List.getElem?_set_ne (Ne.symm hi)
  · intro j hj
    exact List.getElem?_set_ne (Ne.symm hj)
  · exact List.getElem?_set_self (by omega)
  · intro s2 hs2
    simp [feedbackText, hs2]

/-- Witness for C4 on a two-row sheet, thumbs-up on row 2. -/
theorem C4_witness :
    update_log_feedback (some [["a", "b", "c", "d", "e", "f"], ["g", "h", "i", "j", "k", ""]])
        (some 2) (some 1) =
      some [["a", "b", "c", "d", "e", "f"], ["g", "h", "i", "j", "k", "👍"]] :=
  (C4_single_cell_update [["a", "b", "c", "d", "e", "f"], ["g", "h", "i", "j", "k", ""]]
    ["g", "h", "i", "j", "k", ""] 2 1 (by decide) rfl (by decide)).1.trans (by decide)

/-- C4 counterexample: in `app_brief.py` the append targets the worksheet
`Brief_Logs` while the feedback update targets `sheet1`; on a spreadsheet
whose first worksheet is a different one (`Summary` here), the update
changes a cell of `Summary` and leaves the appended row's Feedback cell in
`Brief_Logs` empty — not the cell the claim designates. -/
theorem C4_counterexample :
    save_to_log_brief (some [("Summary", [["a", "b", "c", "d", "e"]]), ("Brief_Logs", [])])
        "t" "i" "r" "b" =
      (some [("Summary", [["a", "b", "c", "d", "e"]]), ("Brief_Logs", [["t", "i", "r", "b", ""]])],
       some 1) ∧
    update_log_feedback_brief
        (some [("Summary", [["a", "b", "c", "d", "e"]]), ("Brief_Logs", [["t", "i", "r", "b", ""]])])
        (some 1) 1 =
      some [("Summary", [["a", "b", "c", "d", "👍"]]), ("Brief_Logs", [["t", "i", "r", "b", ""]])] :=
  ⟨rfl, rfl⟩

/-- C5 (amended): in `app.py` the feedback widget (and hence its
`update_log_feedback` callback) is only reached when the stored
`last_row_idx` is truthy, the callback is a no-op when the index is `None`,
and any index the search block stores is either the pre-existing one or
exactly the length of the sheet after the append (the 1-based index of the
appended row).  In `app_brief.py` the update callback can be invoked with a
`None` row index after a failed append (see the counterexample). -/
theorem C5_feedback_requires_row (conn : Option Sheet) (st : AppState) (score : Option Int) :
    (feedbackWidgetShown st = true → ∃ r, st.last_row_idx = some r ∧ r ≠ 0) ∧
    update_log_feedback conn none score = conn ∧
    ∀ retrieve generate now q n,
      (runSearchBlock retrieve generate now conn st q).state.last_row_idx = some n →
      st.last_row_idx = some n ∨
      ∃ sh, (runSearchBlock retrieve generate now conn st q).sheet = some sh ∧ n = sh.length := by
  refine ⟨?_, rfl, ?_⟩
  · intro h
    unfold feedbackWidgetShown at h
    rw [Bool.and_eq_true] at h
    cases hidx : st.last_row_idx with
    | none => rw [hidx] at h; exact absurd h.2 (by simp)
    | some r =>
        rw [hidx] at h
        refine ⟨r, rfl, ?_⟩
        simpa using h.2
  · intro retrieve generate now q n
    cases hg : searchGuard st q with
    | false =>
        intro h
        simp [runSearchBlock, hg] at h
        exact Or.inl h
    | true =>
        cases hret : retrieve q 5 with
        | error e =>
            intro h
            simp [runSearchBlock, get_recommendations, hg, hret] at h
            exact Or.inl h
        | ok ds =>
            cases hie : ds.isEmpty with
            | true =>
                intro h
                simp [runSearchBlock, get_recommendations, hg, hret, hie] at h
                exact Or.inl h
            | false =>
                cases hgen : generate (mkPrompt q (String.intercalate ", " (ds.map titleOf))) with
                | error e =>
                    intro h
                    simp [runSearchBlock, get_recommendations, hg, hret, hie, hgen] at h
                    exact Or.inl h
                | ok resp =>
                    cases conn with
                    | none =>
                        intro h
                        simp [runSearchBlock, get_recommendations, hg, hret, hie, hgen,
                          save_to_log] at h
                    | some sheet =>
                        intro h
                        simp only [runSearchBlock, get_recommendations, hg, hret, hie, hgen,
                          save_to_log] at h ⊢
                        refine Or.inr ⟨sheet ++
                          [[now, st.session_id, q, resp,
                            String.intercalate ", " (ds.map titleOf), ""]], ?_, ?_⟩
                        · simp
                        · simp at h
                          simp [← h]

/-- Witness for C5 on a state whose widget is shown. -/
theorem C5_witness :
    (∃ r, ({ session_id := "s1", search_results := some ("a", []), prev_query := some "q",
             last_row_idx := some 3 } : AppState).last_row_idx = some r ∧ r ≠ 0) ∧
    update_log_feedback (some [["x"]]) none (some 1) = some [["x"]] := by
  have h := C5_feedback_requires_row (some [["x"]])
    { session_id := "s1", search_results := some ("a", []), prev_query := some "q",
      last_row_idx := some 3 } (some 1)
  exact ⟨h.1 (by decide), h.2.1⟩

/-- C5 counterexample: in `app_brief.py`, when the append fails (here the
`Brief_Logs` worksheet is absent, so `save_to_log` returns `None` and
appends nothing) and the user clicks the feedback widget, the update
callback is still invoked — with `row_index = None`, an index no successful
append returned. -/
theorem C5_counterexample :
    runBriefFlow demoRetrieve demoGenerate "t" (some [("Other", [])]) "q" (some 1) =
      .ok { sheetWorld := some [("Other", [])], retrievalCalls := [("q", 5)],
            genCalls := [mkBriefPrompt "q" "小黑魚"], appendedRows := [],
            updateCalls := [(none, 1)] } :=
  rfl

/-- C10: the admin table displays exactly the rows whose Time date lies in
the inclusive range `[start_date, end_date]` (same multiset: a permutation
of the date filter), sorted by Time in descending order, and the inserted
序號 column takes exactly the values `1..n` in display order, where `n` is
the number of filtered rows. -/
theorem C10_admin_table (rows : List LogRow) (start_date end_date : Nat) :
    ((adminProcess rows start_date end_date).map Prod.fst =
      List.range' 1 (filterByDate rows start_date end_date).length) ∧
    ((adminProcess rows start_date end_date).map Prod.snd).Perm
      (filterByDate rows start_date end_date) ∧
    (∀ r, r ∈ (adminProcess rows start_date end_date).map Prod.snd ↔
      r ∈ rows ∧ start_date ≤ dateOf r.time ∧ dateOf r.time ≤ end_date) ∧
    List.Sorted adminLe ((adminProcess rows start_date end_date).map Prod.snd) := by
  have hlen2 : (adminSort (filterByDate rows start_date end_date)).length =
      (filterByDate rows start_date end_date).length :=
    List.length_insertionSort _ _
  have hsnd : (adminProcess rows start_date end_date).map Prod.snd =
      adminSort (filterByDate rows start_date end_date) :=
    List.map_snd_zip _ _ (by rw [List.length_range'])
  refine ⟨?_, ?_, ?_, ?_⟩
  · rw [← hlen2]
    exact List.map_fst_zip _ _ (by rw [List.length_range'])
  · rw [hsnd]
    exact List.perm_insertionSort adminLe _
  · intro r
    rw [hsnd]
    unfold adminSort
    rw [List.mem_insertionSort]
    simp [filterByDate]
  · rw [hsnd]
    exact List.sorted_insertionSort adminLe _

/-- Witness for C10 on three concrete rows, range covering days 1-2. -/
theorem C10_witness :
    ((adminProcess [⟨100000, ["a"]⟩, ⟨200000, ["b"]⟩, ⟨50, ["c"]⟩] 1 2).map Prod.fst =
      List.range' 1 (filterByDate [⟨100000, ["a"]⟩, ⟨200000, ["b"]⟩, ⟨50, ["c"]⟩] 1 2).length) ∧
    List.Sorted adminLe
      ((adminProcess [⟨100000, ["a"]⟩, ⟨200000, ["b"]⟩, ⟨50, ["c"]⟩] 1 2).map Prod.snd) := by
  have h := C10_admin_table [⟨100000, ["a"]⟩, ⟨200000, ["b"]⟩, ⟨50, ["c"]⟩] 1 2
  exact ⟨h.1, h.2.2.2⟩

end Ibookle
